import Mathlib

/-!
Verification of the job lifecycle orchestrator of `invest-compute`
(`invest_processes/slurm_manager.py`).

The development shallowly embeds the orchestrator's data model and
operations:

* the normalized job states and the slurm-state normalizing map of
  `SlurmManager.get_job_status`;
* the filesystem observations that `get_job_status` performs
  (`os.listdir`, `os.path.exists`) over an abstract filesystem model;
* the job-metadata codec (`json.dumps` at submission, `json.loads` in
  `get_job_metadata`), restricted to the flat three-field string object
  the manager actually serializes;
* `monitor_job_status` as an effect model producing the trace of calls,
  the workspace writes, the constructed error payload and the outcome
  propagated to the monitoring thread;
* `submit_slurm_job` and the sync/async execution handlers.

External effects (the scheduler commands, the workload post-processing
function, the bucket upload) are scripted by environments: each
environment field records the outcome the external collaborator would
produce, and the embedded control flow is translated step by step from
the source.
-/

namespace InvestCompute

/-- The five normalized OGC job states (`pygeoapi.util.JobStatus`). -/
inductive JobStatus where
  | accepted
  | running
  | successful
  | failed
  | dismissed
deriving DecidableEq, Repr

/-- Python exceptions that the embedded code paths can raise. -/
inductive PyErr where
  | notADirectoryErr (path : String)
  | fileNotFoundErr (path : String)
  | keyErr (key : String)
  | calledProcessErr (cmd : String)
  | runtimeErr (msg : String)
  | valueErr (msg : String)
  | storageErr (msg : String)
deriving DecidableEq, Repr

/-- `str(exception)`: the human-readable message interpolated into the
error payload's description. -/
def pyMessage : PyErr → String
  | .notADirectoryErr p => "[Errno 20] Not a directory: " ++ p
  | .fileNotFoundErr p => "[Errno 2] No such file or directory: " ++ p
  | .keyErr k => k
  | .calledProcessErr c => "Command " ++ c ++ " returned non-zero exit status"
  | .runtimeErr m => m
  | .valueErr m => m
  | .storageErr m => m

/-- Abstract POSIX filesystem: the set of existing regular files and the
set of existing directories, as path strings. -/
structure FS where
  files : List String
  dirs : List String
deriving DecidableEq, Repr

/-- `os.path.join(a, b)` for a relative second component. -/
def pathJoin (a b : String) : String := a ++ "/" ++ b

/-- `os.listdir(p)`: succeeds only on a directory; raises
`NotADirectoryError` on a regular file and `FileNotFoundError` on a
missing path.  Only the raising behaviour is observed by the orchestrator
(the listing is printed and discarded), so the model returns `Unit`. -/
def osListdir (fs : FS) (p : String) : Except PyErr Unit :=
  if p ∈ fs.dirs then Except.ok ()
  else if p ∈ fs.files then Except.error (PyErr.notADirectoryErr p)
  else Except.error (PyErr.fileNotFoundErr p)

/-- `os.path.exists(p)`. -/
def osPathExists (fs : FS) (p : String) : Bool :=
  fs.files.contains p || fs.dirs.contains p

/-- The Job Metadata Record serialized into the slurm `--comment`
annotation at submission (`slurm_manager.py` lines 554-558). -/
structure JobMetadata where
  workdir : String
  results_path : String
  process_id : String
deriving DecidableEq, Repr

/-- The `status_map` dict of `get_job_status` (lines 132-145): slurm
state string to normalized state; `none` models a `KeyError` on lookup. -/
def status_map : String → Option JobStatus
  | "BOOT_FAIL" => some .failed
  | "CANCELLED" => some .dismissed
  | "COMPLETED" => some .successful
  | "DEADLINE" => some .failed
  | "FAILED" => some .failed
  | "NODE_FAIL" => some .failed
  | "OUT_OF_MEMORY" => some .failed
  | "PENDING" => some .accepted
  | "PREEMPTED" => some .dismissed
  | "RUNNING" => some .running
  | "SUSPENDED" => some .dismissed
  | "TIMEOUT" => some .failed
  | _ => none

/-- The documented slurm state vocabulary covered by `status_map`. -/
def slurmVocab : List String :=
  ["BOOT_FAIL", "CANCELLED", "COMPLETED", "DEADLINE", "FAILED",
   "NODE_FAIL", "OUT_OF_MEMORY", "PENDING", "PREEMPTED", "RUNNING",
   "SUSPENDED", "TIMEOUT"]

/-- Lines 151-153 of `get_job_status`: look the state up in
`status_map` (raising `KeyError` when absent, modelled as
`Except.error`), then report `successful` in place of `failed` so that
error details remain retrievable. -/
def lookupAndRemap (state : String) : Except PyErr JobStatus :=
  match status_map state with
  | none => Except.error (PyErr.keyErr state)
  | some JobStatus.failed => Except.ok JobStatus.successful
  | some s => Except.ok s

/-- `SlurmManager.get_job_status` (lines 106-153), as a function of the
stripped `sacct` state string, the job metadata stored in the slurm
comment, and the filesystem.  An empty state string (job not yet
recorded) returns `none`.  For any state other than `PENDING`/`RUNNING`
the code takes `workspace_dir` from the metadata's `results_path` field,
evaluates `os.listdir(workspace_dir)` inside a `print` call, and returns
`running` when `workspace_dir/job_complete_token` does not exist;
otherwise it falls through to the normalizing map. -/
def get_job_status (state : String) (meta : JobMetadata) (fs : FS) :
    Except PyErr (Option JobStatus) :=
  if state = "" then Except.ok none
  else if state = "PENDING" ∨ state = "RUNNING" then
    (lookupAndRemap state).map some
  else
    match osListdir fs meta.results_path with
    | Except.error e => Except.error e
    | Except.ok () =>
      if osPathExists fs (pathJoin meta.results_path "job_complete_token") then
        (lookupAndRemap state).map some
      else
        Except.ok (some JobStatus.running)

/-- Job metadata and filesystem of a completed job: the comment holds
`workdir` and `results_path` as written at submission, the workspace
directory exists, `results.json` is a regular file in it, and the
Completion Marker `job_complete_token` has been written into the
workspace by the Completion Monitor. -/
def metaC2 : JobMetadata :=
  { workdir := "/srv/workspaces/slurm_wksp_a",
    results_path := "/srv/workspaces/slurm_wksp_a/results.json",
    process_id := "invest-execute" }

/-- Filesystem for the completed job of `metaC2`. -/
def fsC2 : FS :=
  { files := ["/srv/workspaces/slurm_wksp_a/results.json",
              "/srv/workspaces/slurm_wksp_a/job_complete_token",
              "/srv/workspaces/slurm_wksp_a/script.slurm"],
    dirs := ["/srv/workspaces/slurm_wksp_a"] }

/-- Job metadata of a scheduler-failed job, as stored at submission. -/
def metaC3 : JobMetadata :=
  { workdir := "/srv/workspaces/slurm_wksp_b",
    results_path := "/srv/workspaces/slurm_wksp_b/results.json",
    process_id := "invest-execute" }

/-- Filesystem for the failed job of `metaC3`: marker present in the
workspace. -/
def fsC3 : FS :=
  { files := ["/srv/workspaces/slurm_wksp_b/results.json",
              "/srv/workspaces/slurm_wksp_b/job_complete_token"],
    dirs := ["/srv/workspaces/slurm_wksp_b"] }

/-- JSON escaping of one character, as `json.dumps` performs it for
printable ASCII input: quote and backslash gain a backslash, every
other such character is emitted verbatim. -/
def escChar (c : Char) : List Char :=
  if c = '"' then ['\\', '"']
  else if c = '\\' then ['\\', '\\']
  else [c]

/-- JSON escaping of a character sequence. -/
def escChars : List Char → List Char
  | [] => []
  | c :: cs => escChar c ++ escChars cs

/-- Inverse of a single JSON escape code. -/
def unescOne (e : Char) : Option Char :=
  if e = '"' then some '"'
  else if e = '\\' then some '\\'
  else none

/-- Consume a JSON string body up to and including its closing quote,
undoing the escapes; returns the decoded characters and the remainder
of the input. -/
def unescChars : List Char → Option (List Char × List Char)
  | [] => none
  | c :: cs =>
    if c = '"' then some ([], cs)
    else if c = '\\' then
      match cs with
      | [] => none
      | e :: cs2 =>
        match unescOne e, unescChars cs2 with
        | some u, some (body, rest) => some (u :: body, rest)
        | _, _ => none
    else
      match unescChars cs with
      | some (body, rest) => some (c :: body, rest)
      | none => none

/-- Consume an expected literal character sequence, returning the
remainder. -/
def dropLit : List Char → List Char → Option (List Char)
  | [], s => some s
  | _ :: _, [] => none
  | p :: ps, c :: cs => if c = p then dropLit ps cs else none

/-- Literal opening of the serialized metadata object, up to the opening
quote of the `workdir` value. -/
def sepA : List Char := "\x7b\"workdir\": \"".data

/-- Literal separator between the `workdir` and `results_path` values
(the closing quote of `workdir` is consumed by `unescChars`). -/
def sepB : List Char := ", \"results_path\": \"".data

/-- Literal separator between the `results_path` and `process_id`
values. -/
def sepC : List Char := ", \"process_id\": \"".data

/-- Character sequence of `json.dumps` applied to the metadata dict of
`submit_slurm_job` (insertion order `workdir`, `results_path`,
`process_id`, default separators). -/
def dumpsChars (m : JobMetadata) : List Char :=
  sepA ++ (escChars m.workdir.data ++ '"' ::
    (sepB ++ (escChars m.results_path.data ++ '"' ::
      (sepC ++ (escChars m.process_id.data ++ '"' :: ['\x7d'])))))

/-- `json.dumps` of the Job Metadata Record (lines 554-558). -/
def dumpsMetadata (m : JobMetadata) : String := String.mk (dumpsChars m)

/-- `json.loads` restricted to the shape of metadata objects produced at
submission, as deserialized by `get_job_metadata` (lines 210-216). -/
def loadsMetadata (s : String) : Option JobMetadata :=
  match dropLit sepA s.data with
  | none => none
  | some r1 =>
    match unescChars r1 with
    | none => none
    | some (w, r2) =>
      match dropLit sepB r2 with
      | none => none
      | some r3 =>
        match unescChars r3 with
        | none => none
        | some (rp, r4) =>
          match dropLit sepC r4 with
          | none => none
          | some r5 =>
            match unescChars r5 with
            | none => none
            | some (p, r6) =>
              if r6 = ['\x7d'] then
                some ⟨String.mk w, String.mk rp, String.mk p⟩
              else none

/-- The slurm `--comment` annotation attached by `submit_slurm_job`:
the serialized record holding the workspace directory, the
`results.json` path inside it, and the processor's id. -/
def submitComment (workspace_dir process_id : String) : String :=
  dumpsMetadata
    { workdir := workspace_dir,
      results_path := pathJoin workspace_dir "results.json",
      process_id := process_id }

/-- `get_job_metadata`: deserialize the comment annotation retrieved
from the scheduler's store (the `scontrol` path; the `sacct` fallback
returns the same stored string). -/
def get_job_metadata (comment : String) : Option JobMetadata :=
  loadsMetadata comment

/-- A string on which the embedded codec agrees with Python's
`json.dumps`: printable ASCII (no control characters, nothing
`ensure_ascii` would hex-escape). -/
def asciiClean (s : String) : Bool :=
  s.data.all (fun c => 0x20 ≤ c.toNat && c.toNat < 0x7f)

/-- Observable steps of `monitor_job_status` (lines 355-415): the
status polls of the waiting loop, the `sacct` exit-code query, the call
into the workload's `process_output` function, the `LOGGER.exception`
call of the `except` block, the workspace upload, and the write of the
`job_complete_token` Completion Marker. -/
inductive MEvent where
  | pollCall
  | exitCodeCall
  | postprocessCall
  | logExceptionCall
  | uploadCall
  | markerWrite
deriving DecidableEq, Repr

/-- The loop-exit test of the monitor's polling loop:
`status in {JobStatus.successful, JobStatus.failed, JobStatus.dismissed}`
(the poll value is the return of `get_job_status`, so it may also be
`None` or a non-terminal state, which continue the loop). -/
def isTerminalRet (s : Option JobStatus) : Bool :=
  s = some JobStatus.successful || s = some JobStatus.failed ||
    s = some JobStatus.dismissed

/-- Scripted outcomes of the external effects one `monitor_job_status`
run performs: the successive results of its `get_job_status` polls
(each either a value or a raised exception), the exit-code retrieval
(`int(get_sacct_data(...).split(':')[0])`), the workload-specific
`process_output_func`, and `upload_directory_to_bucket`. -/
structure MonitorEnv where
  polls : List (Except PyErr (Option JobStatus))
  exitCode : Except PyErr Int
  post : Except PyErr Unit
  upload : Except PyErr Unit

/-- The monitor's `while True` polling loop over the scripted poll
results: emits one poll event per iteration and stops at the first
terminal status (ok) or raised exception (error).  If the script is
exhausted without either, the real loop is still running: no exit path
is taken (`none`). -/
def pollLoop : List (Except PyErr (Option JobStatus)) →
    List MEvent × Option (Except PyErr Unit)
  | [] => ([], none)
  | r :: rest =>
    match r with
    | Except.error e => ([MEvent.pollCall], some (Except.error e))
    | Except.ok s =>
      if isTerminalRet s then ([MEvent.pollCall], some (Except.ok ()))
      else (MEvent.pollCall :: (pollLoop rest).1, (pollLoop rest).2)

/-- The error-shaped payload built in the monitor's `except` block
(lines 397-402): `type`, `code`, `description` interpolating the
exception message, and the workspace path. -/
structure ErrPayload where
  typ : String
  code : String
  description : String
  workspace : String
deriving DecidableEq, Repr

/-- The `outputs` dict assigned in the `except` block. -/
def mkErrPayload (e : PyErr) (workspace_dir : String) : ErrPayload :=
  { typ := "process",
    code := "InvalidParameterValue",
    description := "Error executing process: " ++ pyMessage e,
    workspace := workspace_dir }

/-- Result of one `monitor_job_status` run: the ordered trace of
observable steps, the file writes the monitor itself performs in the
workspace, the error payload constructed by the `except` block (if
any), and the outcome propagated to the monitoring thread (`ok` for a
normal return, `error` for an exception escaping the function). -/
structure MonitorOut where
  events : List MEvent
  writes : List (String × String)
  payload : Option ErrPayload
  result : Except PyErr Unit
deriving Repr

/-- The monitor's `try` body after the polling loop has produced an
outcome: on a loop exception nothing further runs; otherwise the
exit-code query runs (its failure raising out of the body), then the
post-processing call (ditto). -/
def tryPhase (env : MonitorEnv) (pevs : List MEvent)
    (pollRes : Except PyErr Unit) : List MEvent × Except PyErr Unit :=
  match pollRes with
  | Except.error e => (pevs, Except.error e)
  | Except.ok () =>
    match env.exitCode with
    | Except.error e => (pevs ++ [MEvent.exitCodeCall], Except.error e)
    | Except.ok _ =>
      match env.post with
      | Except.error e =>
        (pevs ++ [MEvent.exitCodeCall, MEvent.postprocessCall], Except.error e)
      | Except.ok () =>
        (pevs ++ [MEvent.exitCodeCall, MEvent.postprocessCall], Except.ok ())

/-- `monitor_job_status`: the `try` body (polling loop, exit-code
query, post-processing); an `except Exception` block that builds the
error payload and logs the exception; a `finally` block that uploads
the workspace and — in a nested `finally` — writes the Completion
Marker.  An upload exception therefore escapes the function after the
marker write; the marker write is the monitor's only own workspace
write.  `none` models a run whose polling loop never observes a
terminal status or an exception (the loop never exits). -/
def runMonitor (env : MonitorEnv) (workspace_dir : String) :
    Option MonitorOut :=
  match (pollLoop env.polls).2 with
  | none => none
  | some pollRes =>
    let te := tryPhase env (pollLoop env.polls).1 pollRes
    let ex : List MEvent × Option ErrPayload :=
      match te.2 with
      | Except.error e =>
        ([MEvent.logExceptionCall], some (mkErrPayload e workspace_dir))
      | Except.ok () => ([], none)
    some { events := te.1 ++ ex.1 ++ [MEvent.uploadCall, MEvent.markerWrite],
           writes := [(pathJoin workspace_dir "job_complete_token", "job complete")],
           payload := ex.2,
           result := env.upload }

/-- Whether the monitor's `try` body ran to the post-processing call:
the polling loop observed a terminal status and the exit-code query
succeeded. -/
def tryPhaseOk (env : MonitorEnv) : Bool :=
  (match (pollLoop env.polls).2 with
   | some (Except.ok _) => true
   | _ => false) &&
  (match env.exitCode with
   | Except.ok _ => true
   | _ => false)

/-- A monitor run in which the very first poll raises (as the deployed
code does once a job is terminal: `get_job_status` raises
`NotADirectoryError` out of the marker check), and every later step
succeeds. -/
def envC1cex : MonitorEnv :=
  { polls := [Except.error (PyErr.notADirectoryErr "/w1/results.json")],
    exitCode := Except.ok 0,
    post := Except.ok (),
    upload := Except.ok () }

/-- A monitor run in which every step succeeds: two non-terminal polls,
then a terminal one. -/
def envC1wit : MonitorEnv :=
  { polls := [Except.ok (some JobStatus.running), Except.ok none,
              Except.ok (some JobStatus.successful)],
    exitCode := Except.ok 0,
    post := Except.ok (),
    upload := Except.ok () }

/-- Expected output of `runMonitor envC1wit`. -/
def outC1wit : MonitorOut :=
  { events := [MEvent.pollCall, MEvent.pollCall, MEvent.pollCall,
               MEvent.exitCodeCall, MEvent.postprocessCall,
               MEvent.uploadCall, MEvent.markerWrite],
    writes := [("/w2/job_complete_token", "job complete")],
    payload := none,
    result := Except.ok () }

/-- A monitor run in which only the workspace upload raises. -/
def envC5cex : MonitorEnv :=
  { polls := [Except.ok (some JobStatus.successful)],
    exitCode := Except.ok 0,
    post := Except.ok (),
    upload := Except.error (PyErr.storageErr "bucket unreachable") }

/-- Expected output of `runMonitor envC5cex "/w3"`. -/
def outC5 : MonitorOut :=
  { events := [MEvent.pollCall, MEvent.exitCodeCall, MEvent.postprocessCall,
               MEvent.uploadCall, MEvent.markerWrite],
    writes := [("/w3/job_complete_token", "job complete")],
    payload := none,
    result := Except.error (PyErr.storageErr "bucket unreachable") }

/-- A monitor run in which only the post-processing call raises. -/
def envC6cex : MonitorEnv :=
  { polls := [Except.ok (some JobStatus.successful)],
    exitCode := Except.ok 0,
    post := Except.error (PyErr.valueErr "invalid raster path"),
    upload := Except.ok () }

/-- Expected output of `runMonitor envC6cex "/w4"`. -/
def outC6 : MonitorOut :=
  { events := [MEvent.pollCall, MEvent.exitCodeCall, MEvent.postprocessCall,
               MEvent.logExceptionCall, MEvent.uploadCall, MEvent.markerWrite],
    writes := [("/w4/job_complete_token", "job complete")],
    payload := some (mkErrPayload (PyErr.valueErr "invalid raster path") "/w4"),
    result := Except.ok () }

/-- Observable steps of the execution handlers: the `submit_slurm_job`
call, the handler's error log when submission raises, the start of the
monitoring thread, and — in the async handler's visibility wait — the
status polls, the one-second sleeps, and the error log of the `for`
loop's `else` clause. -/
inductive HEvent where
  | submitCall
  | logSubmitFailed
  | monitorThreadStart
  | visPoll
  | sleepOneSec
  | logNoAppear
deriving DecidableEq, Repr

/-- Scripted outcome of the `sbatch` submit command: its exit status
and its captured stdout (the job id). -/
structure SubmitEnv where
  sbatchExitCode : Nat
  sbatchStdout : String

/-- `submit_slurm_job` (lines 521-580): workspace, script and initial
`results.json` are materialized, the metadata comment (`submitComment`)
is attached to the `sbatch` invocation; a non-zero exit of `sbatch`
(`subprocess.CalledProcessError` under `check=True`) is re-raised as
`RuntimeError('Error when submitting slurm job')`; on success the
stripped stdout is the job id, returned with the workspace path. -/
def submit_slurm_job (env : SubmitEnv) (workspace_dir : String) :
    Except PyErr (String × String) :=
  if env.sbatchExitCode ≠ 0 then
    Except.error (PyErr.runtimeErr "Error when submitting slurm job")
  else
    Except.ok (env.sbatchStdout.trim, workspace_dir)

/-- The `outputs` dict returned by the async handler:
`job_id`, `status` (the `accepted` value), `type`. -/
structure AcceptedDoc where
  job_id : String
  status : String
  typ : String
deriving DecidableEq, Repr

/-- The tuple returned by `_execute_handler_async`: job id, MIME type,
response payload (possibly document-wrapped), and status. -/
structure AsyncReturn where
  job_id : String
  mimetype : String
  outputs : AcceptedDoc
  documentWrapped : Bool
  status : JobStatus
deriving DecidableEq, Repr

/-- Scripted environment of `_execute_handler_async`: the submit
command's outcome and the successive results of the visibility-wait
`get_job_status` polls. -/
structure AsyncEnv where
  submit : SubmitEnv
  visPolls : Nat → Except PyErr (Option JobStatus)

/-- The async handler's visibility wait, `for i in range(60)` with the
`else` clause logging when the job never appears: each iteration polls
`get_job_status`; a non-`None` result breaks, a `None` result sleeps
one second; a raised poll exception escapes the handler. -/
def visLoop (polls : Nat → Except PyErr (Option JobStatus)) :
    Nat → Nat → List HEvent × Except PyErr Bool
  | _, 0 => ([HEvent.logNoAppear], Except.ok false)
  | i, k + 1 =>
    match polls i with
    | Except.error e => ([HEvent.visPoll], Except.error e)
    | Except.ok (some _) => ([HEvent.visPoll], Except.ok true)
    | Except.ok none =>
      (HEvent.visPoll :: HEvent.sleepOneSec :: (visLoop polls (i + 1) k).1,
       (visLoop polls (i + 1) k).2)

/-- `_execute_handler_async` (lines 466-519): submit (re-raising a
submission failure after logging, before any thread exists), start the
monitoring thread without joining it, build the accepted-response
payload (document-wrapped on request), run the 60-attempt visibility
wait, and return the job id, MIME type, payload and `accepted`. -/
def execHandlerAsync (env : AsyncEnv) (workspace_dir : String)
    (doc : Bool) : List HEvent × Except PyErr AsyncReturn :=
  match submit_slurm_job env.submit workspace_dir with
  | Except.error e => ([HEvent.submitCall, HEvent.logSubmitFailed], Except.error e)
  | Except.ok (job_id, _) =>
    let v := visLoop env.visPolls 0 60
    ([HEvent.submitCall, HEvent.monitorThreadStart] ++ v.1,
     match v.2 with
     | Except.error e => Except.error e
     | Except.ok _ =>
       Except.ok { job_id := job_id,
                   mimetype := "application/json",
                   outputs := { job_id := job_id, status := "accepted",
                                typ := "process" },
                   documentWrapped := doc,
                   status := JobStatus.accepted })

/-- Scripted environment of `_execute_handler_sync`: the submit
command's outcome, the joined monitor run, and the final
`get_job_status` and `results.json` reads after the join. -/
structure SyncEnv where
  submit : SubmitEnv
  monitor : MonitorEnv
  finalStatus : Except PyErr (Option JobStatus)
  resultsContent : Except PyErr String

/-- The tuple returned by `_execute_handler_sync`: job id, MIME type,
the parsed `results.json` content (possibly document-wrapped), and the
final status. -/
structure SyncReturn where
  job_id : String
  mimetype : String
  outputs : String
  documentWrapped : Bool
  status : Option JobStatus
deriving DecidableEq, Repr

/-- `_execute_handler_sync` (lines 417-464): submit (re-raising a
submission failure after logging), start the monitoring thread and
join it (`none` when the monitor never finishes), then query the final
status and read `results.json` from the workspace. -/
def execHandlerSync (env : SyncEnv) (workspace_dir : String)
    (doc : Bool) : Option (List HEvent × Except PyErr SyncReturn) :=
  match submit_slurm_job env.submit workspace_dir with
  | Except.error e =>
    some ([HEvent.submitCall, HEvent.logSubmitFailed], Except.error e)
  | Except.ok (job_id, wdir) =>
    match runMonitor env.monitor wdir with
    | none => none
    | some _ =>
      some ([HEvent.submitCall, HEvent.monitorThreadStart],
        match env.finalStatus with
        | Except.error e => Except.error e
        | Except.ok st =>
          match env.resultsContent with
          | Except.error e => Except.error e
          | Except.ok content =>
            Except.ok { job_id := job_id,
                        mimetype := "application/json",
                        outputs := content,
                        documentWrapped := doc,
                        status := st })

/-- Async environment whose submission fails. -/
def envC8async : AsyncEnv :=
  { submit := { sbatchExitCode := 1, sbatchStdout := "" },
    visPolls := fun _ => Except.ok none }

/-- Sync environment whose submission fails. -/
def envC8sync : SyncEnv :=
  { submit := { sbatchExitCode := 1, sbatchStdout := "" },
    monitor := { polls := [], exitCode := Except.ok 0,
                 post := Except.ok (), upload := Except.ok () },
    finalStatus := Except.ok none,
    resultsContent := Except.ok "" }

/-- Async environment whose submission succeeds but whose job never
becomes visible to the scheduler within the wait bound. -/
def envC9 : AsyncEnv :=
  { submit := { sbatchExitCode := 0, sbatchStdout := "12345\n" },
    visPolls := fun _ => Except.ok none }

/-- Helper: a state outside the documented vocabulary has no entry in
`status_map`. -/
theorem status_map_eq_none_of_not_mem (s : String) (h : s ∉ slurmVocab) :
    status_map s = none := by
  unfold status_map
  split <;> simp_all [slurmVocab]

/-- C2: the code takes the marker-check base directory from the
metadata's `results_path` field (the `results.json` file written at
submission) instead of `workdir`.  For a scheduler-terminal job whose
Completion Marker is present in the workspace, `get_job_status` raises
`NotADirectoryError` from `os.listdir(results_path)` instead of
returning the normalized terminal state. -/
theorem get_job_status_terminal_raises :
    osPathExists fsC2 (pathJoin metaC2.workdir "job_complete_token") = true ∧
    get_job_status "COMPLETED" metaC2 fsC2 =
      Except.error (PyErr.notADirectoryErr "/srv/workspaces/slurm_wksp_a/results.json") :=
  ⟨rfl, rfl⟩

/-- C3: the failed-to-successful remapping is present in the code
(`lookupAndRemap "FAILED"` yields `successful`), but for a
scheduler-failed job with the Completion Marker present in its
workspace, `get_job_status` never reaches it: it raises
`NotADirectoryError` from `os.listdir` on the `results_path` file it
mistakes for the workspace directory. -/
theorem get_job_status_failed_state_raises :
    lookupAndRemap "FAILED" = Except.ok JobStatus.successful ∧
    osPathExists fsC3 (pathJoin metaC3.workdir "job_complete_token") = true ∧
    get_job_status "FAILED" metaC3 fsC3 =
      Except.error (PyErr.notADirectoryErr "/srv/workspaces/slurm_wksp_b/results.json") :=
  ⟨rfl, rfl, rfl⟩

/-- C4: `status_map` is total over the documented slurm state
vocabulary and follows the mapping policy (PENDING to accepted, RUNNING
to running, COMPLETED to successful, the failure family to failed,
CANCELLED/PREEMPTED/SUSPENDED to dismissed); every state outside the
vocabulary has no entry, so its lookup raises a `KeyError` carrying the
state — a condition distinguishable from every normalized state, never
a silent default. -/
theorem status_map_total_and_loud :
    (status_map "PENDING" = some JobStatus.accepted ∧
     status_map "RUNNING" = some JobStatus.running ∧
     status_map "COMPLETED" = some JobStatus.successful ∧
     status_map "BOOT_FAIL" = some JobStatus.failed ∧
     status_map "DEADLINE" = some JobStatus.failed ∧
     status_map "FAILED" = some JobStatus.failed ∧
     status_map "NODE_FAIL" = some JobStatus.failed ∧
     status_map "OUT_OF_MEMORY" = some JobStatus.failed ∧
     status_map "TIMEOUT" = some JobStatus.failed ∧
     status_map "CANCELLED" = some JobStatus.dismissed ∧
     status_map "PREEMPTED" = some JobStatus.dismissed ∧
     status_map "SUSPENDED" = some JobStatus.dismissed) ∧
    ∀ s, s ∉ slurmVocab →
      status_map s = none ∧
      lookupAndRemap s = Except.error (PyErr.keyErr s) := by
  refine ⟨⟨rfl, rfl, rfl, rfl, rfl, rfl, rfl, rfl, rfl, rfl, rfl, rfl⟩, ?_⟩
  intro s hs
  have hmap : status_map s = none := status_map_eq_none_of_not_mem s hs
  exact ⟨hmap, by unfold lookupAndRemap; rw [hmap]⟩

/-- Witness for C4 at the undocumented slurm state `REQUEUED`. -/
theorem status_map_total_and_loud_witness :
    status_map "REQUEUED" = none ∧
    lookupAndRemap "REQUEUED" = Except.error (PyErr.keyErr "REQUEUED") :=
  status_map_total_and_loud.2 "REQUEUED" (by decide)

/-- Consuming an expected literal that is in fact present succeeds. -/
theorem dropLit_append (pat rest : List Char) :
    dropLit pat (pat ++ rest) = some rest := by
  induction pat with
  | nil => rfl
  | cons c cs ih => simp [dropLit, ih]

/-- Decoding inverts encoding: a JSON-escaped body followed by its
closing quote decodes to the original characters. -/
theorem unescChars_escChars (s tail : List Char) :
    unescChars (escChars s ++ '"' :: tail) = some (s, tail) := by
  induction s with
  | nil =>
    rw [escChars, List.nil_append, unescChars.eq_def]
    simp
  | cons c cs ih =>
    by_cases h1 : c = '"'
    · subst h1
      simp only [escChars, escChar, if_pos rfl, List.cons_append, List.append_assoc,
        List.nil_append]
      rw [unescChars.eq_def]
      simp [unescOne, ih]
    · by_cases h2 : c = '\\'
      · subst h2
        simp only [escChars, escChar, List.cons_append, List.append_assoc,
          List.nil_append]
        simp only [ite_true]
        rw [unescChars.eq_def]
        simp [unescOne, ih]
      · simp only [escChars, escChar, if_neg h1, if_neg h2, List.cons_append,
          List.nil_append]
        rw [unescChars.eq_def]
        simp [unescOne, ih, h1, h2]

/-- C7: the Job Metadata Record serialized into the scheduler comment
annotation at submission and deserialized by the metadata query yields
the same record — same workspace path, results path and process id.
The cleanliness hypotheses delimit where the embedded codec coincides
with Python's `json.dumps` (paths and process ids are printable
ASCII). -/
theorem metadata_comment_roundtrip (workspace_dir process_id : String)
    (_h1 : asciiClean workspace_dir = true)
    (_h2 : asciiClean process_id = true) :
    get_job_metadata (submitComment workspace_dir process_id) =
      some { workdir := workspace_dir,
             results_path := pathJoin workspace_dir "results.json",
             process_id := process_id } := by
  simp [get_job_metadata, submitComment, loadsMetadata, dumpsMetadata,
    dumpsChars, dropLit_append, unescChars_escChars]

/-- Witness for C7 at a concrete workspace path and process id. -/
theorem metadata_comment_roundtrip_witness :
    get_job_metadata (submitComment "/srv/workspaces/slurm_wksp_c" "invest-execute") =
      some { workdir := "/srv/workspaces/slurm_wksp_c",
             results_path := pathJoin "/srv/workspaces/slurm_wksp_c" "results.json",
             process_id := "invest-execute" } :=
  metadata_comment_roundtrip "/srv/workspaces/slurm_wksp_c" "invest-execute"
    (by decide) (by decide)

/-- Every event the polling loop emits is a poll. -/
theorem pollLoop_events_all_pollCall (l : List (Except PyErr (Option JobStatus))) :
    ∀ e ∈ (pollLoop l).1, e = MEvent.pollCall := by
  induction l with
  | nil => intro e he; simp [pollLoop] at he
  | cons r rest ih =>
    intro e he
    cases r with
    | error err =>
      simp [pollLoop] at he
      simp [he]
    | ok s =>
      by_cases h : isTerminalRet s
      · simp [pollLoop, h] at he
        simp [he]
      · simp [pollLoop, h] at he
        rcases he with he | he
        · simp [he]
        · exact ih e he

/-- C1 (as stated, refuted): a monitor run whose first poll raises
writes the Completion Marker exactly once, but no post-processing
attempt is ever made on this exit path — the marker is not written
"only after a post-processing attempt". -/
theorem marker_without_postprocess_attempt :
    runMonitor envC1cex "/w1" =
      some { events := [MEvent.pollCall, MEvent.logExceptionCall,
                        MEvent.uploadCall, MEvent.markerWrite],
             writes := [("/w1/job_complete_token", "job complete")],
             payload := some (mkErrPayload
               (PyErr.notADirectoryErr "/w1/results.json") "/w1"),
             result := Except.ok () } ∧
    [MEvent.pollCall, MEvent.logExceptionCall, MEvent.uploadCall,
      MEvent.markerWrite].count MEvent.markerWrite = 1 ∧
    MEvent.postprocessCall ∉ [MEvent.pollCall, MEvent.logExceptionCall,
      MEvent.uploadCall, MEvent.markerWrite] :=
  ⟨rfl, by decide, by decide⟩

/-- C1 (amended): on every exit path of the monitor the Completion
Marker is written exactly once, as the final step, immediately after
the upload attempt; a post-processing attempt additionally precedes it
exactly when the polling loop observed a terminal status and the
exit-code query succeeded. -/
theorem monitor_marker_invariant (env : MonitorEnv) (ws : String)
    (out : MonitorOut) (h : runMonitor env ws = some out) :
    out.events.count MEvent.markerWrite = 1 ∧
    [MEvent.uploadCall, MEvent.markerWrite] <:+ out.events ∧
    (MEvent.postprocessCall ∈ out.events ↔ tryPhaseOk env = true) ∧
    out.writes = [(pathJoin ws "job_complete_token", "job complete")] := by
  have hall := pollLoop_events_all_pollCall env.polls
  have hcnt : (pollLoop env.polls).1.count MEvent.markerWrite = 0 :=
    List.count_eq_zero.mpr (fun hm => by simpa using hall _ hm)
  have hmem : MEvent.postprocessCall ∉ (pollLoop env.polls).1 :=
    fun hm => by simpa using hall _ hm
  unfold runMonitor at h
  split at h
  · exact absurd h (by simp)
  · next pollRes hp =>
    simp only [Option.some.injEq] at h
    subst h
    cases pollRes with
    | error e =>
      refine ⟨?_, ?_, ?_, rfl⟩
      · simp [tryPhase, List.count_append, hcnt]
      · simp only [tryPhase]
        exact List.suffix_append _ _
      · simp [tryPhase, tryPhaseOk, hp, List.mem_append, hmem]
    | ok u =>
      cases u
      cases hec : env.exitCode with
      | error e =>
        refine ⟨?_, ?_, ?_, rfl⟩
        · simp [tryPhase, hec, List.count_append, hcnt]
        · simp only [tryPhase, hec]
          exact List.suffix_append _ _
        · simp [tryPhase, hec, tryPhaseOk, hp, List.mem_append, hmem]
      | ok n =>
        cases hpo : env.post with
        | error e =>
          refine ⟨?_, ?_, ?_, rfl⟩
          · simp [tryPhase, hec, hpo, List.count_append, hcnt]
          · simp only [tryPhase, hec, hpo]
            exact List.suffix_append _ _
          · simp [tryPhase, hec, hpo, tryPhaseOk, hp, List.mem_append, hmem]
        | ok v =>
          cases v
          refine ⟨?_, ?_, ?_, rfl⟩
          · simp [tryPhase, hec, hpo, List.count_append, hcnt]
          · simp only [tryPhase, hec, hpo]
            exact List.suffix_append _ _
          · simp [tryPhase, hec, hpo, tryPhaseOk, hp, List.mem_append, hmem]

/-- Witness for the amended C1 at a fully successful run. -/
theorem monitor_marker_invariant_witness :
    outC1wit.events.count MEvent.markerWrite = 1 ∧
    [MEvent.uploadCall, MEvent.markerWrite] <:+ outC1wit.events ∧
    (MEvent.postprocessCall ∈ outC1wit.events ↔ tryPhaseOk envC1wit = true) ∧
    outC1wit.writes = [(pathJoin "/w2" "job_complete_token", "job complete")] :=
  monitor_marker_invariant envC1wit "/w2" outC1wit rfl

/-- C5 (as stated, refuted): when the workspace upload raises, the
monitor does not finish normally — the upload exception escapes
`monitor_job_status` (its outcome is the error), and no logging call
records it (the only logging call in the function's error handling is
the `except` block's, which did not run). -/
theorem upload_error_escapes_monitor :
    runMonitor envC5cex "/w3" = some outC5 ∧
    outC5.result = Except.error (PyErr.storageErr "bucket unreachable") ∧
    MEvent.markerWrite ∈ outC5.events ∧
    MEvent.logExceptionCall ∉ outC5.events :=
  ⟨rfl, rfl, by decide, by decide⟩

/-- C5 (amended): an upload failure does not block marker-writing —
the Completion Marker is still written — but the failure is not caught
by the monitor: it propagates out of `monitor_job_status`. -/
theorem upload_error_still_writes_marker (env : MonitorEnv) (ws : String)
    (out : MonitorOut) (e : PyErr)
    (h : runMonitor env ws = some out)
    (hu : env.upload = Except.error e) :
    out.result = Except.error e ∧
    MEvent.markerWrite ∈ out.events ∧
    (pathJoin ws "job_complete_token", "job complete") ∈ out.writes := by
  unfold runMonitor at h
  split at h
  · exact absurd h (by simp)
  · next pollRes hp =>
    simp only [Option.some.injEq] at h
    subst h
    exact ⟨hu, by simp [List.mem_append], by simp⟩

/-- Witness for the amended C5 at a run whose upload raises. -/
theorem upload_error_still_writes_marker_witness :
    outC5.result = Except.error (PyErr.storageErr "bucket unreachable") ∧
    MEvent.markerWrite ∈ outC5.events ∧
    (pathJoin "/w3" "job_complete_token", "job complete") ∈ outC5.writes :=
  upload_error_still_writes_marker envC5cex "/w3" outC5
    (PyErr.storageErr "bucket unreachable") rfl rfl

/-- C6 (as stated, refuted): when post-processing raises, the monitor
builds the error payload, but the payload is never embedded where
results are read — the monitor's only workspace write is the
Completion Marker, and nothing is written to `results.json`. -/
theorem postprocess_error_payload_not_persisted :
    runMonitor envC6cex "/w4" = some outC6 ∧
    outC6.payload = some (mkErrPayload (PyErr.valueErr "invalid raster path") "/w4") ∧
    outC6.writes = [("/w4/job_complete_token", "job complete")] ∧
    (outC6.writes.map Prod.fst).contains "/w4/results.json" = false :=
  ⟨rfl, rfl, rfl, by decide⟩

/-- C6 (amended): a post-processing exception is caught (when the
upload succeeds, the monitor finishes normally), logged, and converted
into the error-shaped payload carrying kind, description and workspace
path — but the payload is only constructed: the monitor's sole
workspace write is the Completion Marker, so the payload is not
embedded where results would otherwise be. -/
theorem postprocess_error_contained (env : MonitorEnv) (ws : String)
    (out : MonitorOut) (e : PyErr) (n : Int)
    (h : runMonitor env ws = some out)
    (hloop : (pollLoop env.polls).2 = some (Except.ok ()))
    (hexit : env.exitCode = Except.ok n)
    (hpost : env.post = Except.error e)
    (hup : env.upload = Except.ok ()) :
    out.result = Except.ok () ∧
    out.payload = some { typ := "process", code := "InvalidParameterValue",
                         description := "Error executing process: " ++ pyMessage e,
                         workspace := ws } ∧
    MEvent.logExceptionCall ∈ out.events ∧
    MEvent.postprocessCall ∈ out.events ∧
    out.writes = [(pathJoin ws "job_complete_token", "job complete")] := by
  unfold runMonitor at h
  split at h
  · exact absurd h (by simp)
  · next pollRes hp =>
    rw [hloop] at hp
    simp only [Option.some.injEq] at hp
    subst hp
    simp only [Option.some.injEq] at h
    subst h
    refine ⟨hup, ?_, ?_, ?_, rfl⟩
    · simp [tryPhase, hexit, hpost, mkErrPayload]
    · simp [tryPhase, hexit, hpost, List.mem_append]
    · simp [tryPhase, hexit, hpost, List.mem_append]

/-- Witness for the amended C6 at a run whose post-processing raises. -/
theorem postprocess_error_contained_witness :
    outC6.result = Except.ok () ∧
    outC6.payload = some { typ := "process", code := "InvalidParameterValue",
                           description := "Error executing process: " ++
                             pyMessage (PyErr.valueErr "invalid raster path"),
                           workspace := "/w4" } ∧
    MEvent.logExceptionCall ∈ outC6.events ∧
    MEvent.postprocessCall ∈ outC6.events ∧
    outC6.writes = [(pathJoin "/w4" "job_complete_token", "job complete")] :=
  postprocess_error_contained envC6cex "/w4" outC6
    (PyErr.valueErr "invalid raster path") 0 rfl rfl rfl rfl rfl

/-- The visibility wait performs at most `k` polls and at most `k`
one-second sleeps. -/
theorem visLoop_count_le (polls : Nat → Except PyErr (Option JobStatus)) :
    ∀ (k i : Nat),
      (visLoop polls i k).1.count HEvent.visPoll ≤ k ∧
      (visLoop polls i k).1.count HEvent.sleepOneSec ≤ k := by
  intro k
  induction k with
  | zero => intro i; simp [visLoop]
  | succ k ih =>
    intro i
    rcases hp : polls i with e | s
    · constructor <;> simp [visLoop, hp, List.count_cons]
    · cases s with
      | some st => constructor <;> simp [visLoop, hp, List.count_cons]
      | none =>
        obtain ⟨h1, h2⟩ := ih (i + 1)
        constructor <;> simp [visLoop, hp, List.count_cons] <;> omega

/-- If no consumed poll raises, the visibility wait finishes without an
exception. -/
theorem visLoop_ok_of_polls_ok (polls : Nat → Except PyErr (Option JobStatus)) :
    ∀ (k i : Nat), (∀ j, j < k → ∃ s, polls (i + j) = Except.ok s) →
      ∃ b, (visLoop polls i k).2 = Except.ok b := by
  intro k
  induction k with
  | zero => intro i _; exact ⟨false, rfl⟩
  | succ k ih =>
    intro i h
    obtain ⟨s, hs⟩ := h 0 (Nat.succ_pos k)
    rw [Nat.add_zero] at hs
    cases s with
    | some st => exact ⟨true, by simp [visLoop, hs]⟩
    | none =>
      obtain ⟨b, hb⟩ := ih (i + 1) (fun j hj => by
        have hj1 := h (j + 1) (Nat.succ_lt_succ hj)
        rwa [show i + (j + 1) = i + 1 + j by omega] at hj1)
      exact ⟨b, by simp [visLoop, hs, hb]⟩

/-- If every poll within the bound reports the job as absent, the
`for` loop's `else` clause logs the failure. -/
theorem visLoop_never_logs (polls : Nat → Except PyErr (Option JobStatus)) :
    ∀ (k i : Nat), (∀ j, j < k → polls (i + j) = Except.ok none) →
      HEvent.logNoAppear ∈ (visLoop polls i k).1 := by
  intro k
  induction k with
  | zero => intro i _; simp [visLoop]
  | succ k ih =>
    intro i h
    have h0 : polls i = Except.ok none := by
      have hz := h 0 (Nat.succ_pos k)
      rwa [Nat.add_zero] at hz
    have hrec := ih (i + 1) (fun j hj => by
      have hj1 := h (j + 1) (Nat.succ_lt_succ hj)
      rwa [show i + (j + 1) = i + 1 + j by omega] at hj1)
    simp [visLoop, h0]
    exact hrec

/-- C8: in both execution modes, a non-zero exit of the submit command
raises the fatal `RuntimeError` synchronously to the caller — the
handler's outcome is the error, so no job handle is returned — and the
events performed before raising do not include starting a Completion
Monitor thread. -/
theorem submit_failure_fatal_no_monitor (aenv : AsyncEnv) (senv : SyncEnv)
    (workspace_dir : String) (doc : Bool)
    (ha : aenv.submit.sbatchExitCode ≠ 0)
    (hs : senv.submit.sbatchExitCode ≠ 0) :
    execHandlerAsync aenv workspace_dir doc =
      ([HEvent.submitCall, HEvent.logSubmitFailed],
       Except.error (PyErr.runtimeErr "Error when submitting slurm job")) ∧
    execHandlerSync senv workspace_dir doc =
      some ([HEvent.submitCall, HEvent.logSubmitFailed],
        Except.error (PyErr.runtimeErr "Error when submitting slurm job")) ∧
    HEvent.monitorThreadStart ∉ [HEvent.submitCall, HEvent.logSubmitFailed] := by
  refine ⟨?_, ?_, by decide⟩
  · simp [execHandlerAsync, submit_slurm_job, ha]
  · simp [execHandlerSync, submit_slurm_job, hs]

/-- Witness for C8 at concrete failing submissions. -/
theorem submit_failure_fatal_no_monitor_witness :
    execHandlerAsync envC8async "/w8" false =
      ([HEvent.submitCall, HEvent.logSubmitFailed],
       Except.error (PyErr.runtimeErr "Error when submitting slurm job")) ∧
    execHandlerSync envC8sync "/w8" false =
      some ([HEvent.submitCall, HEvent.logSubmitFailed],
        Except.error (PyErr.runtimeErr "Error when submitting slurm job")) ∧
    HEvent.monitorThreadStart ∉ [HEvent.submitCall, HEvent.logSubmitFailed] :=
  submit_failure_fatal_no_monitor envC8async envC8sync "/w8" false
    (by decide) (by decide)

/-- C9: after a successful submission, the async handler's visibility
wait performs at most 60 polls and at most 60 one-second sleeps, and
— provided no poll raises — the handler returns the accepted response
carrying the job handle and the `accepted` state both when the job
appears within the bound and when it never does; in the latter case
the failure is logged. -/
theorem async_returns_accepted (env : AsyncEnv) (workspace_dir : String)
    (doc : Bool)
    (hsub : env.submit.sbatchExitCode = 0)
    (hpolls : ∀ j, j < 60 → ∃ s, env.visPolls j = Except.ok s) :
    (execHandlerAsync env workspace_dir doc).2 =
      Except.ok { job_id := env.submit.sbatchStdout.trim,
                  mimetype := "application/json",
                  outputs := { job_id := env.submit.sbatchStdout.trim,
                               status := "accepted", typ := "process" },
                  documentWrapped := doc,
                  status := JobStatus.accepted } ∧
    (execHandlerAsync env workspace_dir doc).1.count HEvent.visPoll ≤ 60 ∧
    (execHandlerAsync env workspace_dir doc).1.count HEvent.sleepOneSec ≤ 60 ∧
    ((∀ j, j < 60 → env.visPolls j = Except.ok none) →
      HEvent.logNoAppear ∈ (execHandlerAsync env workspace_dir doc).1) := by
  have hsubmit : submit_slurm_job env.submit workspace_dir =
      Except.ok (env.submit.sbatchStdout.trim, workspace_dir) := by
    simp [submit_slurm_job, hsub]
  obtain ⟨b, hb⟩ := visLoop_ok_of_polls_ok env.visPolls 60 0
    (fun j hj => by simpa using hpolls j hj)
  obtain ⟨hc1, hc2⟩ := visLoop_count_le env.visPolls 60 0
  refine ⟨?_, ?_, ?_, ?_⟩
  · simp [execHandlerAsync, hsubmit, hb]
  · simp [execHandlerAsync, hsubmit, List.count_append, List.count_cons]
    omega
  · simp [execHandlerAsync, hsubmit, List.count_append, List.count_cons]
    omega
  · intro hnone
    have hlog := visLoop_never_logs env.visPolls 60 0
      (fun j hj => by simpa using hnone j hj)
    simp [execHandlerAsync, hsubmit, List.mem_append]
    exact hlog

/-- Witness for C9 at a submission whose job never becomes visible. -/
theorem async_returns_accepted_witness :
    (execHandlerAsync envC9 "/w9" false).2 =
      Except.ok { job_id := envC9.submit.sbatchStdout.trim,
                  mimetype := "application/json",
                  outputs := { job_id := envC9.submit.sbatchStdout.trim,
                               status := "accepted", typ := "process" },
                  documentWrapped := false,
                  status := JobStatus.accepted } ∧
    HEvent.logNoAppear ∈ (execHandlerAsync envC9 "/w9" false).1 :=
  ⟨(async_returns_accepted envC9 "/w9" false rfl
      (fun _j _hj => ⟨none, rfl⟩)).1,
   (async_returns_accepted envC9 "/w9" false rfl
      (fun _j _hj => ⟨none, rfl⟩)).2.2.2 (fun _j _hj => rfl)⟩

/-- C10: when the scheduler's state query returns an empty result (the
job is not yet recorded by slurm), `get_job_status` returns `None`
without raising and without producing any of the five normalized
states. -/
theorem get_job_status_empty_state (meta : JobMetadata) (fs : FS) :
    get_job_status "" meta fs = Except.ok none := rfl

end InvestCompute
